import Mathlib

/-!
Verification of the client-side navigation script
`src/assets/js/page_change.js` of the nikita-traynin.github.io site.

The script is embedded shallowly:

* the synchronous behaviour of each function is its trace of browser-API
  events (`$.get` requests issued, `history.pushState` calls made);
* the document is the list of its top-level nodes, and the success callback
  passed to `$.get` is a function on documents;
* the asynchronous outcomes of in-flight requests are a list of
  `Completion`s processed in arrival order;
* the `window.onpopstate` handler returns `Except`, since reading
  `ps.state.type` throws when `ps.state` is null.
-/

namespace PageChange

/-- A history state object as passed to `window.history.pushState`.
Mirrors the JS record literals `{type: "page", page_name: ...}` and
`{type: "post", post_path: ...}`; a field absent from the literal is
`none` (JS `undefined`). -/
structure StateObj where
  type : String
  page_name : Option String := none
  post_path : Option String := none
  deriving DecidableEq, Repr

/-- JS string coercion of a possibly-undefined record field: reading an
absent field yields `undefined`, which string concatenation renders as
"undefined". -/
def jsField : Option String → String
  | none => "undefined"
  | some s => s

/-- A browser-API event observable in the synchronous trace of a call:
a GET request issued by `$.get`, or a `history.pushState` call. -/
inductive Event where
  | get (path : String)
  | push (state : StateObj) (url : String)
  deriving DecidableEq, Repr

def Event.isGet : Event → Bool
  | .get _ => true
  | _ => false

def Event.isPush : Event → Bool
  | .push _ _ => true
  | _ => false

/-- Trace of `loadPage(page_name)`: the parameter is reassigned to "home"
when it equals "" (a reassignment local to `loadPage`), then one GET is
issued for `"/" + page_name + "/"`. -/
def loadPage (page_name : String) : List Event :=
  let pn := if page_name == "" then "home" else page_name
  [Event.get ("/" ++ pn ++ "/")]

/-- The state object `{type: "page", page_name: page_name}` pushed by
`openPage`. -/
def pageState (page_name : String) : StateObj :=
  { type := "page", page_name := some page_name }

/-- Trace of `openPage(page_name)`: calls `loadPage(page_name)`, then
pushes `{type: "page", page_name: page_name}` with URL `/${page_name}`.
Both uses of `page_name` here are the unmodified argument of `openPage`;
the normalization inside `loadPage` does not affect them. -/
def openPage (page_name : String) : List Event :=
  loadPage page_name ++
    [Event.push (pageState page_name) ("/" ++ page_name)]

/-- Trace of `loadPost(post_path)`: one GET for the literal path. -/
def loadPost (post_path : String) : List Event :=
  [Event.get post_path]

/-- The state object `{type: "post", post_path: post_path}` pushed by
`openPost`. -/
def postState (post_path : String) : StateObj :=
  { type := "post", post_path := some post_path }

/-- Trace of `openPost(post_path)`: calls `loadPost(post_path)`, then
pushes `{type: "post", post_path: post_path}` with URL `post_path`. -/
def openPost (post_path : String) : List Event :=
  loadPost post_path ++
    [Event.push (postState post_path) post_path]

/-- The `window.onpopstate` handler. The popped state may be null
(modelled as `none`); the handler reads `ps.state.type` unconditionally,
which throws a TypeError on null. Otherwise it dispatches on the tag:
"page" replays `loadPage(ps.state.page_name)`, "post" replays
`loadPost(ps.state.post_path)`, and any other tag falls through both
branches, producing no events. -/
def onpopstate (state : Option StateObj) : Except String (List Event) :=
  match state with
  | none => Except.error "TypeError: cannot read property of null"
  | some s =>
    if s.type == "page" then Except.ok (loadPage (jsField s.page_name))
    else if s.type == "post" then Except.ok (loadPost (jsField s.post_path))
    else Except.ok []

/-- A top-level document node: the `nav` element, the element with id
`page-wrapper` (the Content Region, carrying the displayed body), or any
other node. -/
inductive Node where
  | navbar
  | wrapper (body : String)
  | other (s : String)
  deriving DecidableEq, Repr

/-- A document is the sequence of its top-level nodes. -/
abbrev Doc := List Node

def Node.isWrapper : Node → Bool
  | .wrapper _ => true
  | _ => false

def Node.isNavbar : Node → Bool
  | .navbar => true
  | _ => false

/-- `$("#page-wrapper").remove()`: drop every node matching the selector
from the document. -/
def removeWrapper (d : Doc) : Doc :=
  d.filter (fun n => !n.isWrapper)

/-- `$("nav").after(data)`: insert the response body immediately after
every `nav` element (the DOM contract provides exactly one). The served
fragment is the next Content Region, so the inserted node is a
`page-wrapper` carrying `data`. -/
def afterNav (data : String) : Doc → Doc
  | [] => []
  | Node.navbar :: rest => Node.navbar :: Node.wrapper data :: afterNav data rest
  | Node.wrapper b :: rest => Node.wrapper b :: afterNav data rest
  | Node.other s :: rest => Node.other s :: afterNav data rest

/-- The success callback passed to `$.get`, textually identical in
`loadPage` and `loadPost`: remove the previous content, then add the
current content after `nav`. -/
def onSuccess (data : String) (d : Doc) : Doc :=
  afterNav data (removeWrapper d)

/-- Outcome, in arrival order, of one in-flight GET request. -/
inductive Completion where
  | success (data : String)
  | failure
  deriving DecidableEq, Repr

/-- Effect of one request outcome on the document. `$.get` is given only
a success callback, so on failure no code runs at all. -/
def applyCompletion (d : Doc) : Completion → Doc
  | .success data => onSuccess data d
  | .failure => d

/-- Document after a sequence of request completions, processed in
arrival order. -/
def runCompletions (d : Doc) (cs : List Completion) : Doc :=
  cs.foldl applyCompletion d

/-- The bodies of the `page-wrapper` elements of a document, in order. -/
def wrapperBodies (d : Doc) : List String :=
  d.filterMap (fun n => match n with | .wrapper b => some b | _ => none)

/-- Number of `nav` elements in a document. -/
def navCount (d : Doc) : Nat :=
  (d.filter Node.isNavbar).length

/-- The browser session history: the stack of pushed (state, url) pairs,
most recent last. -/
abbrev History := List (StateObj × String)

/-- Document plus session history. -/
structure World where
  doc : Doc
  history : History
  deriving DecidableEq, Repr

/-- Synchronous effect of one traced event on the world: a `get` merely
starts a request (its completion is processed separately and can only
touch the document), while `pushState` appends an entry to the session
history. -/
def execEvent (w : World) : Event → World
  | .get _ => w
  | .push s url => { w with history := w.history ++ [(s, url)] }

/-- Synchronous effect of a whole trace. -/
def execSync (w : World) (es : List Event) : World :=
  es.foldl execEvent w

/-- A full run of one navigation call: its synchronous trace executes
first, then the single GET it issued completes with outcome `c`. -/
def runOpen (es : List Event) (c : Completion) (w : World) : World :=
  let w1 := execSync w es
  { w1 with doc := applyCompletion w1.doc c }

/-- The path `"/" + page_name + "/"` that `loadPage` requests, after its
local normalization of the empty name. -/
def pagePath (page_name : String) : String :=
  "/" ++ (if page_name == "" then "home" else page_name) ++ "/"

/-! ### Helper lemmas -/

lemma afterNav_no_navbar (data : String) (d : Doc) (h : Node.navbar ∉ d) :
    afterNav data d = d := by
  induction d with
  | nil => rfl
  | cons n rest ih =>
    cases n with
    | navbar => simp at h
    | wrapper b =>
      simp only [afterNav]
      rw [ih (fun hm => h (List.mem_cons_of_mem _ hm))]
    | other s =>
      simp only [afterNav]
      rw [ih (fun hm => h (List.mem_cons_of_mem _ hm))]

lemma afterNav_append_no_navbar (data : String) (a b : Doc)
    (h : Node.navbar ∉ a) :
    afterNav data (a ++ b) = a ++ afterNav data b := by
  induction a with
  | nil => rfl
  | cons n rest ih =>
    cases n with
    | navbar => simp at h
    | wrapper bd =>
      simp only [List.cons_append, afterNav, List.append_eq]
      rw [ih (fun hm => h (List.mem_cons_of_mem _ hm))]
    | other s =>
      simp only [List.cons_append, afterNav, List.append_eq]
      rw [ih (fun hm => h (List.mem_cons_of_mem _ hm))]

lemma navCount_afterNav (data : String) (d : Doc) :
    navCount (afterNav data d) = navCount d := by
  induction d with
  | nil => rfl
  | cons n rest ih =>
    cases n <;>
      simp [afterNav, navCount, List.filter, Node.isNavbar] at ih ⊢ <;>
      omega

lemma navCount_removeWrapper (d : Doc) :
    navCount (removeWrapper d) = navCount d := by
  induction d with
  | nil => rfl
  | cons n rest ih =>
    cases n <;>
      simp [removeWrapper, navCount, List.filter, Node.isNavbar, Node.isWrapper]
        at ih ⊢ <;>
      omega

lemma wrapperBodies_removeWrapper (d : Doc) :
    wrapperBodies (removeWrapper d) = [] := by
  induction d with
  | nil => rfl
  | cons n rest ih =>
    cases n with
    | navbar =>
      simpa [removeWrapper, List.filter_cons, Node.isWrapper, wrapperBodies,
        List.filterMap_cons] using ih
    | wrapper b =>
      simpa [removeWrapper, List.filter_cons, Node.isWrapper] using ih
    | other s =>
      simpa [removeWrapper, List.filter_cons, Node.isWrapper, wrapperBodies,
        List.filterMap_cons] using ih

lemma wrapperBodies_afterNav_of_none (data : String) (d : Doc)
    (h : wrapperBodies d = []) :
    wrapperBodies (afterNav data d) = List.replicate (navCount d) data := by
  induction d with
  | nil => rfl
  | cons n rest ih =>
    cases n with
    | navbar =>
      simp only [afterNav, wrapperBodies, List.filterMap, navCount,
        List.filter, Node.isNavbar] at h ih ⊢
      rw [ih h]
      simp [List.replicate_succ]
    | wrapper b =>
      simp [wrapperBodies, List.filterMap] at h
    | other s =>
      simp only [afterNav, wrapperBodies, List.filterMap, navCount,
        List.filter, Node.isNavbar] at h ih ⊢
      exact ih h

lemma onSuccess_wrapperBodies (data : String) (d : Doc) (h : navCount d = 1) :
    wrapperBodies (onSuccess data d) = [data] := by
  unfold onSuccess
  rw [wrapperBodies_afterNav_of_none data _ (wrapperBodies_removeWrapper d),
    navCount_removeWrapper, h]
  rfl

lemma navCount_applyCompletion (d : Doc) (c : Completion) :
    navCount (applyCompletion d c) = navCount d := by
  cases c with
  | success data =>
    show navCount (onSuccess data d) = navCount d
    unfold onSuccess
    rw [navCount_afterNav, navCount_removeWrapper]
  | failure => rfl

lemma navCount_runCompletions (d : Doc) (cs : List Completion) :
    navCount (runCompletions d cs) = navCount d := by
  induction cs generalizing d with
  | nil => rfl
  | cons c rest ih =>
    show navCount (runCompletions (applyCompletion d c) rest) = navCount d
    rw [ih, navCount_applyCompletion]

/-! ### Claim theorems -/

/-- C1, counterexample: `openPage("")` is not equivalent to
`openPage("home")` in the recorded history entry. `openPage("")` pushes
the state object with `page_name` equal to `""` and URL `"/"`, while
`openPage("home")` pushes `page_name` equal to `"home"` and URL
`"/home"`: the `page_name` fields and the URLs both differ. -/
theorem openPage_empty_push_differs :
    (openPage "").filter Event.isPush = [Event.push (pageState "") ("/" ++ "")] ∧
    (openPage "home").filter Event.isPush =
      [Event.push (pageState "home") ("/" ++ "home")] ∧
    (pageState "").page_name ≠ (pageState "home").page_name ∧
    ("/" ++ "" : String) ≠ "/" ++ "home" := by
  refine ⟨rfl, rfl, by decide, by decide⟩

/-- C1, amended: `openPage("")` and `openPage("home")` issue the same GET
request path `"/home/"` and push entries with the same tag `"page"`, but
the history entry records the unnormalized argument: `openPage("")`
pushes `page_name` `""` with URL `"/"`. The empty name is normalized to
`"home"` only inside `loadPage`, before path construction, not before the
history entry is recorded; replaying such an entry still requests
`"/home/"` because `loadPage` normalizes again. -/
theorem openPage_empty_normalized_for_path_only :
    (openPage "").filter Event.isGet = (openPage "home").filter Event.isGet ∧
    (openPage "").filter Event.isGet = [Event.get ("/" ++ "home" ++ "/")] ∧
    (pageState "").type = (pageState "home").type ∧
    (openPage "").filter Event.isPush = [Event.push (pageState "") ("/" ++ "")] ∧
    loadPage "" = loadPage "home" := by
  refine ⟨rfl, rfl, rfl, rfl, rfl⟩

/-- C2: for every non-empty `page_name`, `openPage(page_name)` issues
exactly one GET request, for exactly `"/" + page_name + "/"`, and pushes
exactly one history entry, whose tag is `"page"` and whose `page_name`
field is the argument itself. -/
theorem openPage_nonempty_spec (page_name : String) (h : page_name ≠ "") :
    (openPage page_name).filter Event.isGet =
      [Event.get ("/" ++ page_name ++ "/")] ∧
    (openPage page_name).filter Event.isPush =
      [Event.push (pageState page_name) ("/" ++ page_name)] ∧
    (pageState page_name).type = "page" ∧
    (pageState page_name).page_name = some page_name := by
  have hb : (page_name == "") = false := by simp [h]
  refine ⟨?_, rfl, rfl, rfl⟩
  simp [openPage, loadPage, hb, List.filter_cons, Event.isGet]

/-- Witness for C2 at the concrete page name "about". -/
theorem openPage_nonempty_spec_witness :
    ("about" : String) ≠ "" ∧
    ((openPage "about").filter Event.isGet =
      [Event.get ("/" ++ "about" ++ "/")] ∧
    (openPage "about").filter Event.isPush =
      [Event.push (pageState "about") ("/" ++ "about")] ∧
    (pageState "about").type = "page" ∧
    (pageState "about").page_name = some "about") :=
  ⟨by decide, openPage_nonempty_spec "about" (by decide)⟩

/-- C3, counterexample: at `page_name` `"home"` the pushed URL `"/home"`
differs from the requested path `"/home/"` (the request has a trailing
slash that the pushed URL lacks). -/
theorem openPage_url_neq_path_cex :
    (openPage "home").filter Event.isPush =
      [Event.push (pageState "home") ("/" ++ "home")] ∧
    (openPage "home").filter Event.isGet = [Event.get ("/" ++ "home" ++ "/")] ∧
    ("/" ++ "home" : String) ≠ "/" ++ "home" ++ "/" := by
  refine ⟨rfl, rfl, by decide⟩

/-- C3, amended: for every `page_name`, the history push records URL
`"/" + page_name` while the GET request is for
`"/" + effective_name + "/"` (where `effective_name` is `"home"` when the
argument is empty, else the argument); the pushed URL never equals the
requested path, since the requested path carries a trailing slash. -/
theorem openPage_url_lacks_trailing_slash (page_name : String) :
    (openPage page_name).filter Event.isPush =
      [Event.push (pageState page_name) ("/" ++ page_name)] ∧
    (openPage page_name).filter Event.isGet = [Event.get (pagePath page_name)] ∧
    "/" ++ page_name ≠ pagePath page_name := by
  refine ⟨rfl, rfl, ?_⟩
  unfold pagePath
  by_cases hb : page_name = ""
  · subst hb
    decide
  · have hbf : (page_name == "") = false := by simp [hb]
    rw [hbf]
    simp only [Bool.false_eq_true, if_false]
    intro heq
    have hlen := congrArg String.length heq
    have h1 : ("/" : String).length = 1 := rfl
    simp [String.length_append] at hlen
    omega

/-- C4: for every `post_path`, `openPost(post_path)` issues exactly one
GET request, for exactly the unmodified path, and pushes exactly one
history entry, tagged `"post"`, with `post_path` field equal to the
argument and URL equal to the argument. -/
theorem openPost_spec (post_path : String) :
    (openPost post_path).filter Event.isGet = [Event.get post_path] ∧
    (openPost post_path).filter Event.isPush =
      [Event.push (postState post_path) post_path] ∧
    (postState post_path).type = "post" ∧
    (postState post_path).post_path = some post_path :=
  ⟨rfl, rfl, rfl, rfl⟩

/-- C5: for every stored navigation entry (exactly the `pageState` and
`postState` objects that `openPage` and `openPost` push), the popstate
handler replays the matching load (`loadPage` with the stored
`page_name`, `loadPost` with the stored `post_path`), and the replayed
trace contains no `pushState` call, so the session history is left
unchanged. -/
theorem popstate_replays_without_push (page_name post_path : String) (w : World) :
    onpopstate (some (pageState page_name)) = Except.ok (loadPage page_name) ∧
    onpopstate (some (postState post_path)) = Except.ok (loadPost post_path) ∧
    (loadPage page_name).filter Event.isPush = [] ∧
    (loadPost post_path).filter Event.isPush = [] ∧
    (execSync w (loadPage page_name)).history = w.history ∧
    (execSync w (loadPost post_path)).history = w.history :=
  ⟨rfl, rfl, rfl, rfl, rfl, rfl⟩

/-- C6: all three navigation operations perform the same fetch-and-replace:
`loadPage` and `loadPost` each issue exactly one GET to the resolved path
(and the `open` wrappers add no further GET), the popstate handler replays
exactly those loads, and the shared success callback, on a document with a
single `nav` element, removes every `page-wrapper` node and inserts the
response body immediately after the `nav` element. -/
theorem fetch_and_replace_shared (page_name post_path data : String)
    (pre suf : Doc) (h1 : Node.navbar ∉ pre) (h2 : Node.navbar ∉ suf) :
    loadPage page_name = [Event.get (pagePath page_name)] ∧
    loadPost post_path = [Event.get post_path] ∧
    (openPage page_name).filter Event.isGet = loadPage page_name ∧
    (openPost post_path).filter Event.isGet = loadPost post_path ∧
    onpopstate (some (pageState page_name)) = Except.ok (loadPage page_name) ∧
    onpopstate (some (postState post_path)) = Except.ok (loadPost post_path) ∧
    onSuccess data (pre ++ Node.navbar :: suf) =
      removeWrapper pre ++ Node.navbar :: Node.wrapper data :: removeWrapper suf := by
  refine ⟨rfl, rfl, rfl, rfl, rfl, rfl, ?_⟩
  have hpre : Node.navbar ∉ removeWrapper pre :=
    fun hm => h1 (List.mem_of_mem_filter hm)
  have hsuf : Node.navbar ∉ removeWrapper suf :=
    fun hm => h2 (List.mem_of_mem_filter hm)
  show afterNav data (removeWrapper (pre ++ Node.navbar :: suf)) = _
  have hsplit : removeWrapper (pre ++ Node.navbar :: suf) =
      removeWrapper pre ++ Node.navbar :: removeWrapper suf := by
    simp [removeWrapper, List.filter_append, List.filter_cons, Node.isWrapper]
  rw [hsplit, afterNav_append_no_navbar data _ _ hpre, afterNav,
    afterNav_no_navbar data _ hsuf]

/-- Witness for C6 on a concrete document with one `nav`, one old
`page-wrapper`, and surrounding nodes. -/
theorem fetch_and_replace_shared_witness :
    Node.navbar ∉ ([Node.other "head"] : Doc) ∧
    Node.navbar ∉ ([Node.wrapper "old", Node.other "footer"] : Doc) ∧
    (loadPage "about" = [Event.get (pagePath "about")] ∧
    loadPost "/posts/x" = [Event.get "/posts/x"] ∧
    (openPage "about").filter Event.isGet = loadPage "about" ∧
    (openPost "/posts/x").filter Event.isGet = loadPost "/posts/x" ∧
    onpopstate (some (pageState "about")) = Except.ok (loadPage "about") ∧
    onpopstate (some (postState "/posts/x")) = Except.ok (loadPost "/posts/x") ∧
    onSuccess "new" ([Node.other "head"] ++ Node.navbar ::
        [Node.wrapper "old", Node.other "footer"]) =
      removeWrapper [Node.other "head"] ++ Node.navbar :: Node.wrapper "new" ::
        removeWrapper [Node.wrapper "old", Node.other "footer"]) :=
  ⟨by decide, by decide,
    fetch_and_replace_shared "about" "/posts/x" "new"
      [Node.other "head"] [Node.wrapper "old", Node.other "footer"]
      (by decide) (by decide)⟩

/-- C7: a failed GET runs no code at all (only a success callback is
registered), so the document is unchanged both as a single step and at
the end of any completion sequence, and no error value arises. -/
theorem failed_fetch_leaves_doc_unchanged (d : Doc) (cs : List Completion) :
    applyCompletion d Completion.failure = d ∧
    runCompletions d (cs ++ [Completion.failure]) = runCompletions d cs := by
  refine ⟨rfl, ?_⟩
  simp [runCompletions, List.foldl_append, applyCompletion]

/-- C8: for any document with exactly one `nav` element and any sequence
of request completions whose last arrival is a success carrying `data`,
the resulting document contains exactly one Content Region and its body
is `data` (last response wins in completion order). -/
theorem last_response_wins (d : Doc) (cs : List Completion) (data : String)
    (h : navCount d = 1) :
    wrapperBodies (runCompletions d (cs ++ [Completion.success data])) = [data] ∧
    (wrapperBodies (runCompletions d (cs ++ [Completion.success data]))).length
      = 1 := by
  have hstep : runCompletions d (cs ++ [Completion.success data]) =
      applyCompletion (runCompletions d cs) (Completion.success data) := by
    simp [runCompletions, List.foldl_append]
  have hnav : navCount (runCompletions d cs) = 1 := by
    rw [navCount_runCompletions, h]
  have hbodies :
      wrapperBodies (runCompletions d (cs ++ [Completion.success data])) = [data] := by
    rw [hstep]
    exact onSuccess_wrapperBodies data _ hnav
  exact ⟨hbodies, by simp [hbodies]⟩

/-- Witness for C8: two overlapping requests complete out of order on a
concrete one-nav document; the later arrival wins. -/
theorem last_response_wins_witness :
    navCount [Node.navbar, Node.wrapper "old"] = 1 ∧
    (wrapperBodies (runCompletions [Node.navbar, Node.wrapper "old"]
        ([Completion.success "stale", Completion.failure] ++
          [Completion.success "fresh"])) = ["fresh"] ∧
    (wrapperBodies (runCompletions [Node.navbar, Node.wrapper "old"]
        ([Completion.success "stale", Completion.failure] ++
          [Completion.success "fresh"]))).length = 1) :=
  ⟨by decide,
    last_response_wins [Node.navbar, Node.wrapper "old"]
      [Completion.success "stale", Completion.failure] "fresh" (by decide)⟩

/-- C9: `openPage` and `openPost` push their history entry in the
synchronous part of the call, before and independent of the outcome of
the asynchronous GET: the history gains exactly the new entry for every
completion outcome, and on a failed fetch the document is unchanged while
the history has still grown. -/
theorem push_unconditional_and_synchronous
    (page_name post_path : String) (w : World) (c : Completion) :
    (execSync w (openPage page_name)).history =
      w.history ++ [(pageState page_name, "/" ++ page_name)] ∧
    (execSync w (openPage page_name)).doc = w.doc ∧
    (runOpen (openPage page_name) c w).history =
      w.history ++ [(pageState page_name, "/" ++ page_name)] ∧
    runOpen (openPage page_name) Completion.failure w =
      { doc := w.doc,
        history := w.history ++ [(pageState page_name, "/" ++ page_name)] } ∧
    (execSync w (openPost post_path)).history =
      w.history ++ [(postState post_path, post_path)] ∧
    runOpen (openPost post_path) Completion.failure w =
      { doc := w.doc,
        history := w.history ++ [(postState post_path, post_path)] } :=
  ⟨rfl, rfl, rfl, rfl, rfl, rfl⟩

/-- C10: the popstate handler reads `state.type` unconditionally: a null
stored state makes it throw a TypeError instead of doing nothing, while a
non-null state whose tag is neither "page" nor "post" falls through both
branches, issuing no events (no fetch) and leaving everything unchanged. -/
theorem popstate_null_throws (s : StateObj)
    (hp : s.type ≠ "page") (hq : s.type ≠ "post") :
    onpopstate none = Except.error "TypeError: cannot read property of null" ∧
    onpopstate (some s) = Except.ok [] := by
  refine ⟨rfl, ?_⟩
  simp [onpopstate, hp, hq]

/-- Witness for C10 at a concrete entry with an unrecognized tag. -/
theorem popstate_null_throws_witness :
    ({ type := "other" } : StateObj).type ≠ "page" ∧
    ({ type := "other" } : StateObj).type ≠ "post" ∧
    (onpopstate none = Except.error "TypeError: cannot read property of null" ∧
    onpopstate (some { type := "other" }) = Except.ok []) :=
  ⟨by decide, by decide,
    popstate_null_throws { type := "other" } (by decide) (by decide)⟩

end PageChange
